import Mathlib

/-!
Shallow embedding of `src/backend/routers/announcements.py` — the
announcements CRUD router of the High School Management System API.

Modelling conventions:
* MongoDB collections become Lean lists.  `announcements_collection` is a
  `List Announcement`; `teachers_collection` is a `List String` of teacher
  `_id`s (the router only ever checks presence of a teacher document).
* Each handler becomes a pure function.  Handlers that can mutate the store
  return `Except HTTPException α × DB`: the second component is the store
  after the call (unchanged whenever an exception is raised, since a raised
  `HTTPException` aborts the handler before/without the store write).
* `datetime.utcnow()` values are threaded in as explicit arguments
  (`current_date`, `now_iso`), and the ObjectId that MongoDB assigns on
  insert is the explicit argument `new_id`.
* Python string truthiness (`if not teacher_username`, `if start_date`,
  `if not expiration_date`) is modelled by explicit `= ""` tests next to the
  `Option` match.
* MongoDB `$gte` on the ISO date strings and `.sort("created_at", -1)` use
  lexicographic string order, i.e. the `LinearOrder String` instance.
-/

namespace Announcements

/-- An announcement document.  `_id` holds the canonical (lower-case)
24-hex-char ObjectId string; `start_date` is `none` when the field was not
supplied (Python `None`). -/
structure Announcement where
  _id : String
  message : String
  start_date : Option String
  expiration_date : String
  created_by : String
  created_at : String
deriving DecidableEq, Repr

/-- The database visible to the router: the announcements collection and the
set of teacher `_id`s present in the teachers collection. -/
structure DB where
  announcements : List Announcement
  teachers : List String
deriving DecidableEq, Repr

/-- Model of `fastapi.HTTPException`, reduced to the two fields the router sets. -/
structure HTTPException where
  status_code : Nat
  detail : String
deriving DecidableEq, Repr

def authRequiredErr : HTTPException :=
  ⟨401, "Authentication required for this action"⟩

def invalidCredsErr : HTTPException :=
  ⟨401, "Invalid teacher credentials"⟩

def invalidDateFormatErr : HTTPException :=
  ⟨400, "Invalid date format. Use YYYY-MM-DD"⟩

def startAfterExpErr : HTTPException :=
  ⟨400, "Start date cannot be after expiration date"⟩

/-! ### Calendar dates and `datetime.fromisoformat` -/

/-- A parsed calendar date (the result of `datetime.fromisoformat(s).date()`). -/
structure Date where
  year : Nat
  month : Nat
  day : Nat
deriving DecidableEq, Repr

/-- Strict comparison of `datetime.date` values: lexicographic on
(year, month, day), as Python compares date objects. -/
def Date.lt (a b : Date) : Bool :=
  a.year < b.year ||
    (a.year = b.year &&
      (a.month < b.month || (a.month = b.month && a.day < b.day)))

def digitVal (c : Char) : Nat := c.toNat - '0'.toNat

/-- Number of days in a month, with the Gregorian leap-year rule
(as `datetime.date` validates the day). -/
def daysInMonth (y m : Nat) : Nat :=
  if m = 2 then
    if (y % 4 = 0 && y % 100 ≠ 0) || y % 400 = 0 then 29 else 28
  else if m = 4 || m = 6 || m = 9 || m = 11 then 30 else 31

/-- Two ASCII digit chars forming a number `< bound`. -/
def twoDigitsLt (a b : Char) (bound : Nat) : Bool :=
  a.isDigit && b.isDigit && 10 * digitVal a + digitVal b < bound

/-- Validity of the `HH[:MM[:SS[.fff[fff]]]]` time component accepted by
`datetime.fromisoformat` (CPython's `_parse_hh_mm_ss_ff` plus the range
checks the `time` constructor performs). -/
def validHMS : List Char → Bool
  | [a, b] => twoDigitsLt a b 24
  | a :: b :: ':' :: rest =>
    twoDigitsLt a b 24 &&
      (match rest with
       | [c, d] => twoDigitsLt c d 60
       | c :: d :: ':' :: rest2 =>
         twoDigitsLt c d 60 &&
           (match rest2 with
            | [e, f] => twoDigitsLt e f 60
            | e :: f :: '.' :: frac =>
              twoDigitsLt e f 60 &&
                (frac.length = 3 || frac.length = 6) && frac.all Char.isDigit
            | _ => false)
       | _ => false)
  | _ => false

/-- Validity of a `±HH:MM[:SS[.ffffff]]` UTC-offset component accepted by
`datetime.fromisoformat` (sign already stripped). -/
def validTzTail : List Char → Bool
  | a :: b :: ':' :: c :: d :: rest =>
    twoDigitsLt a b 24 && twoDigitsLt c d 60 &&
      (match rest with
       | [] => true
       | ':' :: e :: f :: rest2 =>
         twoDigitsLt e f 60 &&
           (match rest2 with
            | [] => true
            | '.' :: frac => frac.length = 6 && frac.all Char.isDigit
            | _ => false)
       | _ => false)
  | _ => false

/-- Split a time string at the first `+`/`-`, the way
`datetime.fromisoformat` separates the UTC offset from the clock time. -/
def splitTz (cs : List Char) : List Char × Option (List Char) :=
  match cs.findIdx? (fun c => c = '+' || c = '-') with
  | none => (cs, none)
  | some i => (cs.take i, some (cs.drop (i + 1)))

/-- Model of `datetime.fromisoformat(s).date()`: parse a `YYYY-MM-DD` calendar date,
optionally followed by one separator character and a valid time-of-day (with
optional UTC offset), returning the date part; `none` models the
`ValueError` raised on any other string.  Note this parser accepts full
date-time strings such as `"2025-06-10T00:00:00"`, not only bare calendar
dates, exactly as CPython's does. -/
def dateFromIsoformat (s : String) : Option Date :=
  match s.toList with
  | y1 :: y2 :: y3 :: y4 :: '-' :: m1 :: m2 :: '-' :: d1 :: d2 :: rest =>
    if y1.isDigit && y2.isDigit && y3.isDigit && y4.isDigit &&
        m1.isDigit && m2.isDigit && d1.isDigit && d2.isDigit then
      let y := 1000 * digitVal y1 + 100 * digitVal y2 + 10 * digitVal y3 + digitVal y4
      let m := 10 * digitVal m1 + digitVal m2
      let d := 10 * digitVal d1 + digitVal d2
      if 1 ≤ y && 1 ≤ m && m ≤ 12 && 1 ≤ d && d ≤ daysInMonth y m then
        match rest with
        | [] => some ⟨y, m, d⟩
        | _sep :: timeChars =>
          let (tpart, tz) := splitTz timeChars
          if validHMS tpart &&
              (match tz with | none => true | some z => validTzTail z) then
            some ⟨y, m, d⟩
          else none
      else none
    else none
  | _ => none

/-! ### ObjectId -/

/-- Model of `bson.ObjectId(s)`: succeeds exactly on 24-character hex strings and
yields the canonical lower-case form (`str(ObjectId(s))`); `none` models the
`InvalidId` exception. -/
def objectIdOfString (s : String) : Option String :=
  if s.length = 24 &&
      s.toList.all (fun c =>
        c.isDigit || ('a' ≤ c && c ≤ 'f') || ('A' ≤ c && c ≤ 'F')) then
    some (String.mk (s.toList.map Char.toLower))
  else none

/-! ### Sorting by `created_at` descending -/

/-- The comparator realising `.sort("created_at", -1)`: newest first,
comparing the ISO timestamp strings. -/
def byCreatedAtDesc (a b : Announcement) : Bool :=
  decide (b.created_at ≤ a.created_at)

/-- Model of `announcements_collection.find(...).sort("created_at", -1)`
applied to a list of documents. -/
def sortByCreatedAtDesc (l : List Announcement) : List Announcement :=
  l.mergeSort byCreatedAtDesc

/-! ### The five handlers -/

/-- Handler for `GET /announcements/active` — `get_active_announcements`.
`current_date` is `datetime.utcnow().date().isoformat()`.  The Mongo query
keeps documents with `expiration_date >= current_date`; the loop then skips
documents whose `start_date` is truthy (present and non-empty) and
`> current_date`. -/
def get_active_announcements (current_date : String) (db : DB) :
    List Announcement :=
  let queried := db.announcements.filter
    (fun a => decide (current_date ≤ a.expiration_date))
  (sortByCreatedAtDesc queried).filter
    (fun a =>
      match a.start_date with
      | none => true
      | some s => !(s ≠ "" && decide (current_date < s)))

/-- Handler for `GET /announcements` — `get_all_announcements`: auth check, then every
document sorted newest-first. -/
def get_all_announcements (teacher_username : Option String) (db : DB) :
    Except HTTPException (List Announcement) :=
  match teacher_username with
  | none => .error authRequiredErr
  | some u =>
    if u = "" then .error authRequiredErr
    else if u ∈ db.teachers then .ok (sortByCreatedAtDesc db.announcements)
    else .error invalidCredsErr

/-- Handler for `POST /announcements` — `create_announcement`.  `now_iso` is
`datetime.utcnow().isoformat()` and `new_id` the ObjectId MongoDB assigns to
the inserted document.  Returns the response (or raised exception) together
with the announcements store after the call. -/
def create_announcement (message : String) (expiration_date : String)
    (start_date : Option String) (teacher_username : Option String)
    (now_iso : String) (new_id : String) (db : DB) :
    Except HTTPException Announcement × DB :=
  match teacher_username with
  | none => (.error authRequiredErr, db)
  | some u =>
    if u = "" then (.error authRequiredErr, db)
    else if u ∉ db.teachers then (.error invalidCredsErr, db)
    else if expiration_date = "" then
      (.error ⟨400, "Expiration date is required"⟩, db)
    else
      let ann : Announcement :=
        ⟨new_id, message, start_date, expiration_date, u, now_iso⟩
      let inserted : Except HTTPException Announcement × DB :=
        (.ok ann, { db with announcements := db.announcements ++ [ann] })
      match dateFromIsoformat expiration_date with
      | none => (.error invalidDateFormatErr, db)
      | some exp_date =>
        match start_date with
        | none => inserted
        | some s =>
          if s = "" then inserted
          else
            match dateFromIsoformat s with
            | none => (.error invalidDateFormatErr, db)
            | some st_date =>
              if Date.lt exp_date st_date then (.error startAfterExpErr, db)
              else inserted

/-- Overwrite exactly the three fields of `update_data` (`$set`). -/
def applySet (message expiration_date : String) (start_date : Option String)
    (a : Announcement) : Announcement :=
  { a with
    message := message
    start_date := start_date
    expiration_date := expiration_date }

/-- Model of `update_one` with a `$set` document: rewrite the first matching
document, leave every other document alone. -/
def updateFirst (oid : String) (f : Announcement → Announcement) :
    List Announcement → List Announcement
  | [] => []
  | a :: as => if a._id == oid then f a :: as else a :: updateFirst oid f as

/-- Handler for `PUT /announcements/{announcement_id}` — `update_announcement`.
Auth check, ObjectId validation, existence check, date validation, `$set`
of the three mutable fields, then re-fetch of the updated document. -/
def update_announcement (announcement_id : String) (message : String)
    (expiration_date : String) (start_date : Option String)
    (teacher_username : Option String) (db : DB) :
    Except HTTPException Announcement × DB :=
  match teacher_username with
  | none => (.error authRequiredErr, db)
  | some u =>
    if u = "" then (.error authRequiredErr, db)
    else if u ∉ db.teachers then (.error invalidCredsErr, db)
    else
      match objectIdOfString announcement_id with
      | none => (.error ⟨400, "Invalid announcement ID"⟩, db)
      | some oid =>
        match db.announcements.find? (fun a => a._id == oid) with
        | none => (.error ⟨404, "Announcement not found"⟩, db)
        | some _existing =>
          match dateFromIsoformat expiration_date with
          | none => (.error invalidDateFormatErr, db)
          | some exp_date =>
            let doUpdate : Except HTTPException Announcement × DB :=
              let newStore :=
                updateFirst oid (applySet message expiration_date start_date)
                  db.announcements
              -- `matched_count` is 1 here (a document was found above), so
              -- the `modified_count == 0 and matched_count == 0` branch
              -- raising 500 cannot fire; the re-fetch cannot miss either.
              -- The unreachable alternatives are kept for totality.
              match (newStore.find? (fun a => a._id == oid)) with
              | some updated =>
                (.ok updated, { db with announcements := newStore })
              | none =>
                (.error ⟨500, "Failed to update announcement"⟩,
                  { db with announcements := newStore })
            match start_date with
            | none => doUpdate
            | some s =>
              if s = "" then doUpdate
              else
                match dateFromIsoformat s with
                | none => (.error invalidDateFormatErr, db)
                | some st_date =>
                  if Date.lt exp_date st_date then (.error startAfterExpErr, db)
                  else doUpdate

/-- Model of `delete_one` by id: remove the first matching document. -/
def deleteFirst (oid : String) : List Announcement → List Announcement
  | [] => []
  | a :: as => if a._id == oid then as else a :: deleteFirst oid as

/-- Handler for `DELETE /announcements/{announcement_id}` — `delete_announcement`.
Auth check, ObjectId validation, then `delete_one`; 404 when
`deleted_count == 0`, i.e. when no document matched. -/
def delete_announcement (announcement_id : String)
    (teacher_username : Option String) (db : DB) :
    Except HTTPException String × DB :=
  match teacher_username with
  | none => (.error authRequiredErr, db)
  | some u =>
    if u = "" then (.error authRequiredErr, db)
    else if u ∉ db.teachers then (.error invalidCredsErr, db)
    else
      match objectIdOfString announcement_id with
      | none => (.error ⟨400, "Invalid announcement ID"⟩, db)
      | some oid =>
        if db.announcements.any (fun a => a._id == oid) then
          (.ok "Announcement deleted successfully",
            { db with announcements := deleteFirst oid db.announcements })
        else (.error ⟨404, "Announcement not found"⟩, db)


/-! ### Helper lemmas -/

theorem byCreatedAtDesc_trans (a b c : Announcement) :
    byCreatedAtDesc a b → byCreatedAtDesc b c → byCreatedAtDesc a c := by
  simp only [byCreatedAtDesc, decide_eq_true_eq]
  exact fun h1 h2 => le_trans h2 h1

theorem byCreatedAtDesc_total (a b : Announcement) :
    byCreatedAtDesc a b || byCreatedAtDesc b a := by
  simp only [byCreatedAtDesc, Bool.or_eq_true, decide_eq_true_eq]
  exact le_total b.created_at a.created_at

theorem sorted_sortByCreatedAtDesc (l : List Announcement) :
    (sortByCreatedAtDesc l).Pairwise
      (fun a b => b.created_at ≤ a.created_at) := by
  have h := List.sorted_mergeSort byCreatedAtDesc_trans byCreatedAtDesc_total l
  exact h.imp (by simp only [byCreatedAtDesc, decide_eq_true_eq]; exact id)

theorem mem_sortByCreatedAtDesc {a : Announcement} {l : List Announcement} :
    a ∈ sortByCreatedAtDesc l ↔ a ∈ l := by
  simp [sortByCreatedAtDesc, List.mem_mergeSort]

theorem not_lt_empty_string (s : String) : ¬ s < "" := by
  apply not_lt_of_le
  rw [String.le_iff_toList_le, String.toList_empty]
  exact List.nil_le

/-! ### Sample data used by witnesses and counterexamples -/

def annA : Announcement :=
  ⟨"64f0c2a19e1d2b3c4d5e6f01", "Library hours extended", none,
    "2025-12-31", "t1", "2025-01-01T00:00:00"⟩

def annB : Announcement :=
  ⟨"64f0c2a19e1d2b3c4d5e6f02", "Sports day", some "2025-06-07",
    "2025-06-10", "t1", "2025-03-01T00:00:00"⟩

def dbEx : DB := ⟨[annA, annB], ["t1"]⟩

/-! ### Claims -/

/-- C8: for every store state, both list-active and list-all return their
results ordered by `created_at` descending (newest first). -/
theorem c8_results_sorted_by_created_at_desc (today : String)
    (tu : Option String) (db : DB) :
    (get_active_announcements today db).Pairwise
      (fun a b => b.created_at ≤ a.created_at) ∧
    ∀ l, get_all_announcements tu db = .ok l →
      l.Pairwise (fun a b => b.created_at ≤ a.created_at) := by
  constructor
  · unfold get_active_announcements
    exact (sorted_sortByCreatedAtDesc _).filter _
  · intro l hl
    rcases tu with _ | u
    · simp [get_all_announcements] at hl
    · simp only [get_all_announcements] at hl
      split at hl
      · exact absurd hl (by simp)
      · split at hl
        · rw [Except.ok.injEq] at hl
          rw [← hl]
          exact sorted_sortByCreatedAtDesc _
        · exact absurd hl (by simp)

/-- Witness for C8 at a concrete store. -/
theorem c8_witness :
    (get_active_announcements "2025-06-05" dbEx).Pairwise
      (fun a b => b.created_at ≤ a.created_at) ∧
    (sortByCreatedAtDesc dbEx.announcements).Pairwise
      (fun a b => b.created_at ≤ a.created_at) :=
  ⟨(c8_results_sorted_by_created_at_desc "2025-06-05" (some "t1") dbEx).1,
   (c8_results_sorted_by_created_at_desc "2025-06-05" (some "t1") dbEx).2 _ rfl⟩

/-- C1: an announcement is in the list-active result iff it is in the store,
its `expiration_date` is on or after the current date, and its `start_date`,
when set, is not later than the current date (ISO date strings compared
lexicographically, as the spec prescribes; an empty-string `start_date`
satisfies the condition vacuously, matching the code's truthiness test). -/
theorem c1_list_active_membership (today : String) (db : DB)
    (a : Announcement) :
    a ∈ get_active_announcements today db ↔
      a ∈ db.announcements ∧ today ≤ a.expiration_date ∧
        ∀ s, a.start_date = some s → ¬ today < s := by
  unfold get_active_announcements
  rw [List.mem_filter, mem_sortByCreatedAtDesc, List.mem_filter, and_assoc]
  refine and_congr Iff.rfl (and_congr (by simp) ?_)
  rcases hs : a.start_date with _ | s
  · simp
  · have hrhs : (∀ s', some s = some s' → ¬ today < s') ↔ ¬ today < s := by
      constructor
      · exact fun h => h s rfl
      · intro h s' hs'
        rw [Option.some_inj] at hs'
        exact hs' ▸ h
    rw [hrhs]
    by_cases hse : s = ""
    · subst hse
      simp [not_lt_empty_string today]
    · simp [hse]

/-- C2 (amended): in every protected operation the authorization check
precedes all other validation and any store mutation; an absent **or
empty-string** teacher identifier yields the "authentication required"
error, and a supplied non-empty identifier with no matching teacher record
yields the distinct "invalid credentials" error.  All other inputs are
universally quantified, so the auth error fires regardless of any malformed
identifier or dates, and the returned store always equals the input store. -/
theorem c2_amended_auth_precedes_all (tu : Option String) (db : DB)
    (msg es now nid aid : String) (sd : Option String) :
    ((tu = none ∨ tu = some "") →
      get_all_announcements tu db = .error authRequiredErr ∧
      create_announcement msg es sd tu now nid db =
        (.error authRequiredErr, db) ∧
      update_announcement aid msg es sd tu db =
        (.error authRequiredErr, db) ∧
      delete_announcement aid tu db = (.error authRequiredErr, db)) ∧
    ∀ u, tu = some u → u ≠ "" → u ∉ db.teachers →
      get_all_announcements tu db = .error invalidCredsErr ∧
      create_announcement msg es sd tu now nid db =
        (.error invalidCredsErr, db) ∧
      update_announcement aid msg es sd tu db =
        (.error invalidCredsErr, db) ∧
      delete_announcement aid tu db = (.error invalidCredsErr, db) := by
  constructor
  · rintro (rfl | rfl) <;>
      simp [get_all_announcements, create_announcement, update_announcement,
        delete_announcement]
  · rintro u rfl hu hmem
    simp [get_all_announcements, create_announcement, update_announcement,
      delete_announcement, hu, hmem]

/-- C2 counterexample: the empty-string identifier (`?teacher_username=`) is
supplied and matches no teacher record, yet the operation fails with the
"absence" error, not the distinct bad-credentials error the claim
predicts for a supplied-but-unknown identifier. -/
theorem c2_counterexample_empty_identifier :
    some "" ≠ (none : Option String) ∧
    "" ∉ dbEx.teachers ∧
    delete_announcement "64f0c2a19e1d2b3c4d5e6f01" (some "") dbEx =
      (.error authRequiredErr, dbEx) ∧
    authRequiredErr ≠ invalidCredsErr :=
  ⟨by simp, by decide, rfl, by decide⟩

/-- Witness for C2 (amended) at concrete inputs: both authorization errors
observed on a concrete store. -/
theorem c2_amended_witness :
    delete_announcement "64f0c2a19e1d2b3c4d5e6f01" (some "") dbEx =
      (.error authRequiredErr, dbEx) ∧
    delete_announcement "64f0c2a19e1d2b3c4d5e6f01" (some "mallory") dbEx =
      (.error invalidCredsErr, dbEx) :=
  ⟨((c2_amended_auth_precedes_all (some "") dbEx "m" "2025-12-31" "n" "i"
      "64f0c2a19e1d2b3c4d5e6f01" none).1 (Or.inr rfl)).2.2.2,
   ((c2_amended_auth_precedes_all (some "mallory") dbEx "m" "2025-12-31" "n"
      "i" "64f0c2a19e1d2b3c4d5e6f01" none).2 "mallory" rfl (by decide)
      (by decide)).2.2.2⟩

/-- C3: when both dates are supplied and both parse, with `start_date`
strictly after `expiration_date`, create — and update, once it has reached
the date validation past the identifier and existence checks that claim C6
places before it — fails with the start-after-expiration validation error
and the store is unchanged. -/
theorem c3_start_after_expiration_rejected (db : DB) (u : String)
    (hu : u ≠ "") (hmem : u ∈ db.teachers)
    (msg es ss now nid aid : String) (exp st : Date)
    (hes : dateFromIsoformat es = some exp)
    (hss : dateFromIsoformat ss = some st)
    (hlt : Date.lt exp st = true) :
    create_announcement msg es (some ss) (some u) now nid db =
      (.error startAfterExpErr, db) ∧
    ∀ oid existing, objectIdOfString aid = some oid →
      db.announcements.find? (fun a => a._id == oid) = some existing →
      update_announcement aid msg es (some ss) (some u) db =
        (.error startAfterExpErr, db) := by
  have hempty : dateFromIsoformat "" = none := rfl
  have hes' : es ≠ "" := by rintro rfl; rw [hempty] at hes; cases hes
  have hss' : ss ≠ "" := by rintro rfl; rw [hempty] at hss; cases hss
  constructor
  · simp [create_announcement, hu, hmem, hes', hes, hss', hss, hlt]
  · intro oid existing hoid hfind
    simp [update_announcement, hu, hmem, hoid, hfind, hes, hss', hss, hlt]

/-- Witness for C3: start `2025-06-10` after expiration `2025-06-01` is
rejected by create and by update on an existing record. -/
theorem c3_witness :
    create_announcement "Exam" "2025-06-01" (some "2025-06-10") (some "t1")
        "2025-05-01T00:00:00" "64f0c2a19e1d2b3c4d5e6f03" dbEx =
      (.error startAfterExpErr, dbEx) ∧
    update_announcement "64f0c2a19e1d2b3c4d5e6f01" "Exam" "2025-06-01"
        (some "2025-06-10") (some "t1") dbEx =
      (.error startAfterExpErr, dbEx) := by
  have h := c3_start_after_expiration_rejected dbEx "t1" (by decide)
    (by decide) "Exam" "2025-06-01" "2025-06-10" "2025-05-01T00:00:00"
    "64f0c2a19e1d2b3c4d5e6f03" "64f0c2a19e1d2b3c4d5e6f01"
    ⟨2025, 6, 1⟩ ⟨2025, 6, 10⟩ rfl rfl rfl
  exact ⟨h.1, h.2 "64f0c2a19e1d2b3c4d5e6f01" annA rfl rfl⟩

/-- The spec's "ISO calendar date (`YYYY-MM-DD`)", written from the spec's
words for comparison with the code's date handling: exactly the ten
characters `YYYY-MM-DD`, naming a valid calendar date, with nothing after
the day. -/
def isISOCalendarDate (s : String) : Bool :=
  match s.toList with
  | [y1, y2, y3, y4, '-', m1, m2, '-', d1, d2] =>
    y1.isDigit && y2.isDigit && y3.isDigit && y4.isDigit &&
      m1.isDigit && m2.isDigit && d1.isDigit && d2.isDigit &&
      (let y := 1000 * digitVal y1 + 100 * digitVal y2 + 10 * digitVal y3 +
        digitVal y4
       let m := 10 * digitVal m1 + digitVal m2
       let d := 10 * digitVal d1 + digitVal d2
       1 ≤ y && 1 ≤ m && m ≤ 12 && 1 ≤ d && d ≤ daysInMonth y m)
  | _ => false

def annDT : Announcement :=
  ⟨"64f0c2a19e1d2b3c4d5e6f04", "Picnic", some "2025-06-10T00:00:00",
    "2025-12-31", "t1", "2025-05-01T12:00:00"⟩

/-- C4 counterexample: `"2025-06-10T00:00:00"` is not an ISO calendar date,
yet an authorized create supplying it as `start_date` succeeds and persists
the record, because `datetime.fromisoformat` accepts date-time strings. -/
theorem c4_counterexample_datetime_string_accepted :
    isISOCalendarDate "2025-06-10T00:00:00" = false ∧
    create_announcement "Picnic" "2025-12-31" (some "2025-06-10T00:00:00")
        (some "t1") "2025-05-01T12:00:00" "64f0c2a19e1d2b3c4d5e6f04" dbEx =
      (.ok annDT, ⟨dbEx.announcements ++ [annDT], dbEx.teachers⟩) :=
  ⟨rfl, rfl⟩

/-- C4 (amended): each supplied non-empty date string must be accepted by
the `datetime.fromisoformat` parser — which accepts `YYYY-MM-DD` calendar
dates but also date-time strings extending one; a non-empty date string the
parser rejects makes create and update (the latter past its identifier and
existence checks) fail with the 400 format error and leaves the store
unchanged. -/
theorem c4_amended_parser_rejection_is_400 (db : DB) (u : String)
    (hu : u ≠ "") (hmem : u ∈ db.teachers)
    (msg es now nid aid : String) (sd : Option String) :
    (es ≠ "" → dateFromIsoformat es = none →
      create_announcement msg es sd (some u) now nid db =
        (.error invalidDateFormatErr, db)) ∧
    (∀ exp s, dateFromIsoformat es = some exp → sd = some s → s ≠ "" →
      dateFromIsoformat s = none →
      create_announcement msg es sd (some u) now nid db =
        (.error invalidDateFormatErr, db)) ∧
    (∀ oid existing, objectIdOfString aid = some oid →
      db.announcements.find? (fun a => a._id == oid) = some existing →
      dateFromIsoformat es = none →
      update_announcement aid msg es sd (some u) db =
        (.error invalidDateFormatErr, db)) ∧
    ∀ oid existing exp s, objectIdOfString aid = some oid →
      db.announcements.find? (fun a => a._id == oid) = some existing →
      dateFromIsoformat es = some exp → sd = some s → s ≠ "" →
      dateFromIsoformat s = none →
      update_announcement aid msg es sd (some u) db =
        (.error invalidDateFormatErr, db) := by
  have hempty : dateFromIsoformat "" = none := rfl
  refine ⟨?_, ?_, ?_, ?_⟩
  · intro hes' hes
    simp [create_announcement, hu, hmem, hes', hes]
  · intro exp s hes hsd hs' hs
    subst hsd
    have hes' : es ≠ "" := by rintro rfl; rw [hempty] at hes; cases hes
    simp [create_announcement, hu, hmem, hes', hes, hs', hs]
  · intro oid existing hoid hfind hes
    simp [update_announcement, hu, hmem, hoid, hfind, hes]
  · intro oid existing exp s hoid hfind hes hsd hs' hs
    subst hsd
    simp [update_announcement, hu, hmem, hoid, hfind, hes, hs', hs]

/-- Witness for C4 (amended): `"not-a-date"` is rejected with the 400
format error by create (as expiration) and by update (as start date). -/
theorem c4_amended_witness :
    create_announcement "Trip" "not-a-date" none (some "t1")
        "2025-05-01T12:00:00" "64f0c2a19e1d2b3c4d5e6f04" dbEx =
      (.error invalidDateFormatErr, dbEx) ∧
    update_announcement "64f0c2a19e1d2b3c4d5e6f01" "Trip" "2025-12-31"
        (some "not-a-date") (some "t1") dbEx =
      (.error invalidDateFormatErr, dbEx) :=
  ⟨(c4_amended_parser_rejection_is_400 dbEx "t1" (by decide) (by decide)
      "Trip" "not-a-date" "2025-05-01T12:00:00" "64f0c2a19e1d2b3c4d5e6f04"
      "64f0c2a19e1d2b3c4d5e6f01" none).1 (by decide) rfl,
   (c4_amended_parser_rejection_is_400 dbEx "t1" (by decide) (by decide)
      "Trip" "2025-12-31" "2025-05-01T12:00:00" "64f0c2a19e1d2b3c4d5e6f04"
      "64f0c2a19e1d2b3c4d5e6f01" (some "not-a-date")).2.2.2
     "64f0c2a19e1d2b3c4d5e6f01" annA ⟨2025, 12, 31⟩ "not-a-date"
     rfl rfl rfl rfl (by decide) rfl⟩

/-! ### First-match helper lemmas for update/delete -/

theorem find?_decomp {α : Type} {p : α → Bool} {l : List α} {a : α}
    (h : l.find? p = some a) :
    ∃ pre post, l = pre ++ a :: post ∧ (∀ b ∈ pre, p b = false) ∧
      p a = true := by
  rw [List.find?_eq_some] at h
  obtain ⟨hpa, pre, post, rfl, hpre⟩ := h
  exact ⟨pre, post, rfl, fun b hb => by simpa using hpre b hb, hpa⟩

theorem find?_append_cons {p : Announcement → Bool}
    (pre post : List Announcement) (a : Announcement)
    (hpre : ∀ b ∈ pre, p b = false) (ha : p a = true) :
    (pre ++ a :: post).find? p = some a := by
  induction pre with
  | nil => simp [List.find?_cons, ha]
  | cons b bs ih =>
    have hb := hpre b (List.mem_cons_self b bs)
    simp only [List.cons_append, List.find?_cons, hb]
    exact ih fun c hc => hpre c (List.mem_cons_of_mem _ hc)

theorem updateFirst_append (oid : String) (f : Announcement → Announcement)
    (pre post : List Announcement) (a : Announcement)
    (hpre : ∀ b ∈ pre, (b._id == oid) = false)
    (ha : (a._id == oid) = true) :
    updateFirst oid f (pre ++ a :: post) = pre ++ f a :: post := by
  induction pre with
  | nil => simp [updateFirst, ha]
  | cons b bs ih =>
    have hb := hpre b (List.mem_cons_self b bs)
    simp [updateFirst, hb, ih fun c hc => hpre c (List.mem_cons_of_mem _ hc)]

theorem deleteFirst_append (oid : String) (pre post : List Announcement)
    (a : Announcement)
    (hpre : ∀ b ∈ pre, (b._id == oid) = false)
    (ha : (a._id == oid) = true) :
    deleteFirst oid (pre ++ a :: post) = pre ++ post := by
  induction pre with
  | nil => simp [deleteFirst, ha]
  | cons b bs ih =>
    have hb := hpre b (List.mem_cons_self b bs)
    simp [deleteFirst, hb, ih fun c hc => hpre c (List.mem_cons_of_mem _ hc)]

/-- A successful update: the target is found first, the `$set` rewrites its
three mutable fields in place, and the re-fetched post-update record is
returned. -/
theorem update_announcement_success (db : DB) (u : String) (hu : u ≠ "")
    (hmem : u ∈ db.teachers) (aid oid : String)
    (hoid : objectIdOfString aid = some oid) (existing : Announcement)
    (hfind : db.announcements.find? (fun a => a._id == oid) = some existing)
    (msg es : String) (sd : Option String) (exp : Date)
    (hes : dateFromIsoformat es = some exp)
    (hsd : ∀ s, sd = some s → s ≠ "" →
      ∃ st, dateFromIsoformat s = some st ∧ Date.lt exp st = false) :
    update_announcement aid msg es sd (some u) db =
      (.ok (applySet msg es sd existing),
        { db with announcements :=
            updateFirst oid (applySet msg es sd) db.announcements }) := by
  obtain ⟨pre, post, hdec, hpre, ha⟩ := find?_decomp hfind
  have hupd : updateFirst oid (applySet msg es sd) db.announcements =
      pre ++ applySet msg es sd existing :: post := by
    rw [hdec]; exact updateFirst_append oid _ pre post existing hpre ha
  have hfind2 : (updateFirst oid (applySet msg es sd)
        db.announcements).find? (fun a => a._id == oid) =
      some (applySet msg es sd existing) := by
    rw [hupd]; exact find?_append_cons pre post _ hpre ha
  rcases sd with _ | s
  · simp [update_announcement, hu, hmem, hoid, hfind, hes, hfind2]
  · by_cases hse : s = ""
    · subst hse
      simp [update_announcement, hu, hmem, hoid, hfind, hes, hfind2]
    · obtain ⟨st, hst, hlt⟩ := hsd s rfl hse
      simp [update_announcement, hu, hmem, hoid, hfind, hes, hse, hst, hlt,
        hfind2]

/-- C5: a successful update overwrites only `message`, `start_date` and
`expiration_date`: the returned record keeps the target's `_id`,
`created_by` and `created_at` while showing the new field values, and the
store after the call is the old store with exactly the first matching
record so rewritten (every record before it, and the tail after it,
untouched; the teachers collection untouched). -/
theorem c5_update_overwrites_only_mutable_fields (db : DB) (u : String)
    (hu : u ≠ "") (hmem : u ∈ db.teachers) (aid oid : String)
    (hoid : objectIdOfString aid = some oid) (existing : Announcement)
    (hfind : db.announcements.find? (fun a => a._id == oid) = some existing)
    (msg es : String) (sd : Option String) (exp : Date)
    (hes : dateFromIsoformat es = some exp)
    (hsd : ∀ s, sd = some s → s ≠ "" →
      ∃ st, dateFromIsoformat s = some st ∧ Date.lt exp st = false) :
    (update_announcement aid msg es sd (some u) db).1 =
      .ok { existing with
              message := msg, start_date := sd, expiration_date := es } ∧
    ∃ pre post, db.announcements = pre ++ existing :: post ∧
      (∀ b ∈ pre, (b._id == oid) = false) ∧
      (update_announcement aid msg es sd (some u) db).2 =
        ⟨pre ++ applySet msg es sd existing :: post, db.teachers⟩ := by
  have h := update_announcement_success db u hu hmem aid oid hoid existing
    hfind msg es sd exp hes hsd
  obtain ⟨pre, post, hdec, hpre, ha⟩ := find?_decomp hfind
  refine ⟨by rw [h]; rfl, pre, post, hdec, hpre, ?_⟩
  rw [h]
  show { db with announcements :=
      updateFirst oid (applySet msg es sd) db.announcements } = _
  rw [hdec, updateFirst_append oid _ pre post existing hpre ha]

def annC5 : Announcement :=
  ⟨"64f0c2a19e1d2b3c4d5e6f05", "Hello", none, "2025-12-31", "t1",
    "2025-05-01T12:00:00"⟩

def annC5u : Announcement :=
  ⟨"64f0c2a19e1d2b3c4d5e6f05", "Bye", none, "2026-01-31", "t1",
    "2025-05-01T12:00:00"⟩

/-- Witness for C5, including the claim's round-trip: create a record, then
update it with a new message; `created_by` and `created_at` are preserved
and the new message is reflected. -/
theorem c5_witness :
    create_announcement "Hello" "2025-12-31" none (some "t1")
        "2025-05-01T12:00:00" "64f0c2a19e1d2b3c4d5e6f05" ⟨[], ["t1"]⟩ =
      (.ok annC5, ⟨[annC5], ["t1"]⟩) ∧
    (update_announcement "64f0c2a19e1d2b3c4d5e6f05" "Bye" "2026-01-31" none
        (some "t1") ⟨[annC5], ["t1"]⟩).1 = .ok annC5u ∧
    annC5u.created_by = annC5.created_by ∧
    annC5u.created_at = annC5.created_at ∧
    annC5u.message = "Bye" := by
  refine ⟨rfl, ?_, rfl, rfl, rfl⟩
  have h := (c5_update_overwrites_only_mutable_fields ⟨[annC5], ["t1"]⟩ "t1"
    (by decide) (by decide) "64f0c2a19e1d2b3c4d5e6f05"
    "64f0c2a19e1d2b3c4d5e6f05" rfl annC5 rfl "Bye" "2026-01-31" none
    ⟨2026, 1, 31⟩ rfl (fun s hs _ => nomatch hs)).1
  exact h.trans rfl

/-- C6: for an authorized update, a syntactically invalid target identifier
yields the 400 invalid-ID validation error with the store untouched and
regardless of the store's content or of (possibly malformed) dates — i.e.
before any store lookup and before date validation; a well-formed
identifier matching no record yields the 404 not-found error, again
regardless of the dates. -/
theorem c6_update_check_order (db : DB) (u : String) (hu : u ≠ "")
    (hmem : u ∈ db.teachers) (aid msg es : String) (sd : Option String) :
    (objectIdOfString aid = none →
      update_announcement aid msg es sd (some u) db =
        (.error ⟨400, "Invalid announcement ID"⟩, db)) ∧
    ∀ oid, objectIdOfString aid = some oid →
      db.announcements.find? (fun a => a._id == oid) = none →
      update_announcement aid msg es sd (some u) db =
        (.error ⟨404, "Announcement not found"⟩, db) := by
  constructor
  · intro hoid
    simp [update_announcement, hu, hmem, hoid]
  · intro oid hoid hfind
    simp [update_announcement, hu, hmem, hoid, hfind]

/-- Witness for C6: a malformed identifier with malformed dates reports the
identifier error; a missing record with malformed dates reports 404. -/
theorem c6_witness :
    update_announcement "not-an-objectid" "Trip" "bad-date" (some "worse")
        (some "t1") dbEx = (.error ⟨400, "Invalid announcement ID"⟩, dbEx) ∧
    update_announcement "64f0c2a19e1d2b3c4d5e6f99" "Trip" "bad-date"
        (some "worse") (some "t1") dbEx =
      (.error ⟨404, "Announcement not found"⟩, dbEx) :=
  ⟨(c6_update_check_order dbEx "t1" (by decide) (by decide)
      "not-an-objectid" "Trip" "bad-date" (some "worse")).1 rfl,
   (c6_update_check_order dbEx "t1" (by decide) (by decide)
      "64f0c2a19e1d2b3c4d5e6f99" "Trip" "bad-date" (some "worse")).2
     "64f0c2a19e1d2b3c4d5e6f99" rfl rfl⟩

/-- C7: an authorized delete with a well-formed identifier fails with 404,
leaving the store unchanged, exactly when no record matches the identifier;
when a match exists it removes precisely the first matching record, keeps
all others, and returns the success message. -/
theorem c7_delete_not_found_iff_no_match (db : DB) (u : String)
    (hu : u ≠ "") (hmem : u ∈ db.teachers) (aid oid : String)
    (hoid : objectIdOfString aid = some oid) :
    (delete_announcement aid (some u) db =
        (.error ⟨404, "Announcement not found"⟩, db) ↔
      ∀ a ∈ db.announcements, (a._id == oid) = false) ∧
    ∀ pre a post, db.announcements = pre ++ a :: post →
      (a._id == oid) = true → (∀ b ∈ pre, (b._id == oid) = false) →
      delete_announcement aid (some u) db =
        (.ok "Announcement deleted successfully",
          { db with announcements := pre ++ post }) := by
  constructor
  · constructor
    · intro h a hmem2
      by_contra hne
      have hany : db.announcements.any (fun a => a._id == oid) = true :=
        List.any_eq_true.mpr ⟨a, hmem2, by simpa using hne⟩
      rw [show delete_announcement aid (some u) db =
          (.ok "Announcement deleted successfully",
            { db with announcements := deleteFirst oid db.announcements })
        from by simp [delete_announcement, hu, hmem, hoid, hany]] at h
      simp at h
    · intro hall
      have hany : db.announcements.any (fun a => a._id == oid) = false := by
        rw [List.any_eq_false]
        intro a hmem2
        simp [hall a hmem2]
      simp [delete_announcement, hu, hmem, hoid, hany]
  · intro pre a post hdec ha hpre
    have hany : db.announcements.any (fun a => a._id == oid) = true := by
      rw [hdec]
      exact List.any_eq_true.mpr ⟨a, by simp, ha⟩
    have hdel : deleteFirst oid db.announcements = pre ++ post := by
      rw [hdec]; exact deleteFirst_append oid pre post a hpre ha
    simp [delete_announcement, hu, hmem, hoid, hany, hdel]

/-- Witness for C7: deleting a missing identifier is a 404 with the store
unchanged; deleting an existing one removes exactly that record. -/
theorem c7_witness :
    delete_announcement "64f0c2a19e1d2b3c4d5e6f99" (some "t1") dbEx =
      (.error ⟨404, "Announcement not found"⟩, dbEx) ∧
    delete_announcement "64f0c2a19e1d2b3c4d5e6f01" (some "t1") dbEx =
      (.ok "Announcement deleted successfully", ⟨[annB], ["t1"]⟩) := by
  constructor
  · exact (c7_delete_not_found_iff_no_match dbEx "t1" (by decide) (by decide)
      "64f0c2a19e1d2b3c4d5e6f99" "64f0c2a19e1d2b3c4d5e6f99" rfl).1.mpr
      (by decide)
  · have h := (c7_delete_not_found_iff_no_match dbEx "t1" (by decide)
      (by decide) "64f0c2a19e1d2b3c4d5e6f01" "64f0c2a19e1d2b3c4d5e6f01"
      rfl).2 [] annA [annB] rfl (by decide) (by simp)
    exact h.trans rfl

def annEmptyMsg : Announcement :=
  ⟨"64f0c2a19e1d2b3c4d5e6f06", "", none, "2025-12-31", "t1",
    "2025-05-01T12:00:00"⟩

/-- C9 counterexample: an authorized create with the empty message string
succeeds and persists a record whose message is empty — no validation error
is raised, contrary to the claim. -/
theorem c9_counterexample_empty_message_accepted :
    create_announcement "" "2025-12-31" none (some "t1")
        "2025-05-01T12:00:00" "64f0c2a19e1d2b3c4d5e6f06" dbEx =
      (.ok annEmptyMsg,
        ⟨dbEx.announcements ++ [annEmptyMsg], dbEx.teachers⟩) ∧
    annEmptyMsg.message = "" :=
  ⟨rfl, rfl⟩

/-- C9 (amended): `message` is a required parameter but its content is never
validated; an authorized create with the empty message string and a valid
expiration date succeeds and persists the record with the empty message. -/
theorem c9_amended_empty_message_persisted (db : DB) (u : String)
    (hu : u ≠ "") (hmem : u ∈ db.teachers) (es now nid : String)
    (exp : Date) (hes : dateFromIsoformat es = some exp) :
    create_announcement "" es none (some u) now nid db =
      (.ok ⟨nid, "", none, es, u, now⟩,
        { db with announcements :=
            db.announcements ++ [⟨nid, "", none, es, u, now⟩] }) := by
  have hempty : dateFromIsoformat "" = none := rfl
  have hes' : es ≠ "" := by rintro rfl; rw [hempty] at hes; cases hes
  simp [create_announcement, hu, hmem, hes', hes]

/-- Witness for C9 (amended) at a concrete store. -/
theorem c9_amended_witness :
    create_announcement "" "2025-12-31" none (some "t1")
        "2025-05-01T12:00:00" "64f0c2a19e1d2b3c4d5e6f06" dbEx =
      (.ok ⟨"64f0c2a19e1d2b3c4d5e6f06", "", none, "2025-12-31", "t1",
         "2025-05-01T12:00:00"⟩,
        ⟨dbEx.announcements ++
          [⟨"64f0c2a19e1d2b3c4d5e6f06", "", none, "2025-12-31", "t1",
             "2025-05-01T12:00:00"⟩], dbEx.teachers⟩) :=
  c9_amended_empty_message_persisted dbEx "t1" (by decide) (by decide)
    "2025-12-31" "2025-05-01T12:00:00" "64f0c2a19e1d2b3c4d5e6f06"
    ⟨2025, 12, 31⟩ rfl

/-- C10: an empty-string `start_date` is treated as absent throughout:
create and update accept it with no format or ordering validation and store
it verbatim (only the expiration date must parse), and list-active includes
a record whose `start_date` is `""` whenever its expiration date is on or
after the current date. -/
theorem c10_empty_start_date_treated_as_absent (db : DB) (u : String)
    (hu : u ≠ "") (hmem : u ∈ db.teachers)
    (msg es now nid aid : String) (exp : Date)
    (hes : dateFromIsoformat es = some exp) (today : String) :
    create_announcement msg es (some "") (some u) now nid db =
      (.ok ⟨nid, msg, some "", es, u, now⟩,
        { db with announcements :=
            db.announcements ++ [⟨nid, msg, some "", es, u, now⟩] }) ∧
    (∀ oid existing, objectIdOfString aid = some oid →
      db.announcements.find? (fun a => a._id == oid) = some existing →
      (update_announcement aid msg es (some "") (some u) db).1 =
        .ok { existing with
                message := msg, start_date := some "",
                expiration_date := es }) ∧
    ∀ a ∈ db.announcements, a.start_date = some "" →
      today ≤ a.expiration_date → a ∈ get_active_announcements today db := by
  have hempty : dateFromIsoformat "" = none := rfl
  have hes' : es ≠ "" := by rintro rfl; rw [hempty] at hes; cases hes
  refine ⟨?_, ?_, ?_⟩
  · simp [create_announcement, hu, hmem, hes', hes]
  · intro oid existing hoid hfind
    have h := update_announcement_success db u hu hmem aid oid hoid existing
      hfind msg es (some "") exp hes
      (fun s hs hne => absurd (Option.some_inj.mp hs).symm hne)
    rw [h]; rfl
  · intro a hmem2 hsd hexp
    unfold get_active_announcements
    rw [List.mem_filter, mem_sortByCreatedAtDesc, List.mem_filter]
    refine ⟨⟨hmem2, by simpa using hexp⟩, ?_⟩
    rw [hsd]
    simp

def annEmptyStart : Announcement :=
  ⟨"64f0c2a19e1d2b3c4d5e6f08", "Concert", some "", "2025-12-31", "t1",
    "2025-04-01T00:00:00"⟩

def dbEmptyStart : DB := ⟨[annEmptyStart], ["t1"]⟩

/-- Witness for C10 at a concrete store: create stores `""` verbatim, update
stores `""` verbatim, and a record with `start_date := ""` is listed as
active. -/
theorem c10_witness :
    create_announcement "Fair" "2025-12-31" (some "") (some "t1")
        "2025-05-01T12:00:00" "64f0c2a19e1d2b3c4d5e6f07" dbEmptyStart =
      (.ok ⟨"64f0c2a19e1d2b3c4d5e6f07", "Fair", some "", "2025-12-31", "t1",
         "2025-05-01T12:00:00"⟩,
        ⟨dbEmptyStart.announcements ++
          [⟨"64f0c2a19e1d2b3c4d5e6f07", "Fair", some "", "2025-12-31", "t1",
             "2025-05-01T12:00:00"⟩], dbEmptyStart.teachers⟩) ∧
    (update_announcement "64f0c2a19e1d2b3c4d5e6f08" "Fair" "2025-12-31"
        (some "") (some "t1") dbEmptyStart).1 =
      .ok ⟨"64f0c2a19e1d2b3c4d5e6f08", "Fair", some "", "2025-12-31", "t1",
        "2025-04-01T00:00:00"⟩ ∧
    annEmptyStart ∈ get_active_announcements "2025-06-05" dbEmptyStart := by
  have h := c10_empty_start_date_treated_as_absent dbEmptyStart "t1"
    (by decide) (by decide) "Fair" "2025-12-31" "2025-05-01T12:00:00"
    "64f0c2a19e1d2b3c4d5e6f07" "64f0c2a19e1d2b3c4d5e6f08" ⟨2025, 12, 31⟩
    rfl "2025-06-05"
  refine ⟨h.1, ?_, ?_⟩
  · exact (h.2.1 "64f0c2a19e1d2b3c4d5e6f08" annEmptyStart rfl rfl).trans rfl
  · exact h.2.2 annEmptyStart (by simp [dbEmptyStart, annEmptyStart])
      rfl (le_of_lt (String.lt_iff_toList_lt.mpr (by decide)))

/-- Witness for C1 at a concrete store and date: a record in its date window
is listed, a record whose start date is still in the future is not. -/
theorem c1_witness :
    annA ∈ get_active_announcements "2025-06-05" dbEx ∧
    annB ∉ get_active_announcements "2025-06-05" dbEx := by
  constructor
  · exact (c1_list_active_membership "2025-06-05" dbEx annA).mpr
      ⟨by simp [dbEx], le_of_lt (String.lt_iff_toList_lt.mpr (by decide)),
        fun s hs => by simp [annA] at hs⟩
  · intro hmem
    have h := (c1_list_active_membership "2025-06-05" dbEx annB).mp hmem
    exact h.2.2 "2025-06-07" rfl (String.lt_iff_toList_lt.mpr (by decide))

end Announcements
